import Mathlib

/-!
Verification of the connection-orchestration core of the Legian Python
challenge script (`main.py`).

The script's core function `get_device_info` drives a netmiko SSH session:
it either connects directly to a device or relays through a jump host
(sending an embedded `ssh` command, optionally answering a password prompt,
waiting for a prompt, then redispatching the session to the device type),
then sends the configured initial and show commands and returns the show
outputs.

We embed the script shallowly: every externally visible netmiko call
(`ConnectHandler`, `find_prompt`, `write_channel`, `time.sleep`,
`read_channel`, `redispatch`, `send_command`, `disconnect`) is recorded as
an `Event` in a trace, and an `Oracle` models the behaviour of the network
environment (whether connections succeed, whether prompts stabilize, what
text the channel yields, what each command returns or whether it times
out).  Exceptions raised by netmiko calls are modelled with `Except`: an
error short-circuits the rest of the function, exactly as an uncaught
Python exception does.

`main`'s per-device loop is embedded likewise with file-system events.
-/

namespace LegianChallenge

/-- One entry of `device_inventory.json`: host/IP, netmiko device type,
and the hostname used for the output file name. -/
structure Device where
  host : String
  type : String
  hostname : String
deriving Repr, DecidableEq

/-- One entry of `device_type_parameters.json`: the setup commands and the
show commands for a device type. -/
structure DeviceTypeParams where
  initial_commands : List String
  show_commands : List String
deriving Repr, DecidableEq

/-- The `[jumphost]` section of `script_parameters.conf`.  An empty `host`
means "no jump host configured" (Python truthiness of the string). -/
structure JumphostParams where
  host : String
  device_type : String
  username : String
  password : String
deriving Repr, DecidableEq

/-- The `[device_connect_credentials]` section of `script_parameters.conf`. -/
structure DeviceCredentials where
  username : String
  password : String
deriving Repr, DecidableEq

/-- Errors a netmiko call can raise, as they matter to the control flow:
a failed `ConnectHandler` (unreachable host / rejected authentication), a
`find_prompt` that never stabilizes, and a `send_command` whose prompt does
not reappear. -/
inductive NetError where
  | connectionError
  | promptError
  | commandError (cmd : String)
deriving Repr, DecidableEq

/-- Externally visible effects of one `get_device_info` call, in program
order.  `connect` records the four keyword arguments handed to
`ConnectHandler`. -/
inductive Event where
  | connect (device_type host username password : String)
  | findPrompt
  | writeChannel (text : String)
  | sleepSecs (n : Nat)
  | readChannel (text : String)
  | redispatch (device_type : String)
  | sendCommand (cmd : String)
  | disconnect
deriving Repr, DecidableEq

/-- Environment model: how the network behaves during one
`get_device_info` call.  `connectOk` decides whether `ConnectHandler`
succeeds for the given arguments; `findPromptOk n` decides whether the
`n`-th `find_prompt` call of this invocation succeeds; `readChannelText`
is the text accumulated on the channel when `read_channel` is called
during relay negotiation; `sendCommandRes k c` is the output of the `k`-th
`send_command` call of this invocation when it sends `c`, or `none` when
the command times out. -/
structure Oracle where
  connectOk : String → String → String → String → Bool
  findPromptOk : Nat → Bool
  readChannelText : String
  sendCommandRes : Nat → String → Option String

/-- Does `needle` occur at the head of `hay`? -/
def beginsWith : List Char → List Char → Bool
  | [], _ => true
  | _ :: _, [] => false
  | n :: ns, h :: hs => n == h && beginsWith ns hs

/-- Does `needle` occur anywhere in `hay`?  (Python's `needle in hay`.) -/
def occursIn : List Char → List Char → Bool
  | needle, [] => beginsWith needle []
  | needle, h :: hs => beginsWith needle (h :: hs) || occursIn needle hs

/-- Python's substring test `needle in hay` on strings. -/
def strContains (hay needle : String) : Bool :=
  occursIn needle.data hay.data

/-- Line 56: `any(x in output for x in ['password', 'Password'])`. -/
def containsAuthPrompt (output : String) : Bool :=
  strContains output "password" || strContains output "Password"

/-- Lines 76‑77: send every initial command in order, discarding the
result; a timeout raises (aborts the rest).  `k` counts the
`send_command` calls already made in this invocation. -/
def sendInitialCommands (o : Oracle) :
    List String → Nat → List Event → List Event × Nat × Except NetError Unit
  | [], k, tr => (tr, k, .ok ())
  | c :: cs, k, tr =>
    match o.sendCommandRes k c with
    | some _ => sendInitialCommands o cs (k + 1) (tr ++ [Event.sendCommand c])
    | none => (tr ++ [Event.sendCommand c], k + 1, .error (.commandError c))

/-- Lines 80‑82: send every show command in order, appending each raw
output to the accumulator; a timeout raises. -/
def sendShowCommands (o : Oracle) :
    List String → Nat → List String → List Event → List Event × Except NetError (List String)
  | [], _, acc, tr => (tr, .ok acc)
  | c :: cs, k, acc, tr =>
    match o.sendCommandRes k c with
    | some out => sendShowCommands o cs (k + 1) (acc ++ [out]) (tr ++ [Event.sendCommand c])
    | none => (tr ++ [Event.sendCommand c], .error (.commandError c))

/-- Lines 76‑86 of `get_device_info`: the command phase run on an
established session — initial commands, then show commands, then
`disconnect` (which is only reached when nothing raised before it). -/
def deviceSessionDriver (o : Oracle) (dtp : DeviceTypeParams) (tr : List Event) :
    List Event × Except NetError (List String) :=
  match sendInitialCommands o dtp.initial_commands 0 tr with
  | (tr1, _, .error e) => (tr1, .error e)
  | (tr1, k, .ok ()) =>
    match sendShowCommands o dtp.show_commands k [] tr1 with
    | (tr2, .error e) => (tr2, .error e)
    | (tr2, .ok outs) => (tr2 ++ [Event.disconnect], .ok outs)

/-- Lines 42‑73 of `get_device_info`: the connection phase.  When
`jumphost_params['host']` is empty (falsy), connect directly to the device
with its own type and the device credentials (lines 63‑73); otherwise
connect to the jump host with the jump host's type and credentials, send
the embedded `ssh user@host` line, sleep, read the channel once, answer a
password prompt if one is detected, wait for the prompt, and redispatch to
the device's type (lines 42‑61). -/
def connectPhase (o : Oracle) (device : Device) (jp : JumphostParams)
    (creds : DeviceCredentials) : List Event × Except NetError Unit :=
  if jp.host = "" then
    let tr0 := [Event.connect device.type device.host creds.username creds.password]
    if o.connectOk device.type device.host creds.username creds.password then
      if o.findPromptOk 0 then
        (tr0 ++ [Event.findPrompt], .ok ())
      else
        (tr0 ++ [Event.findPrompt], .error .promptError)
    else
      (tr0, .error .connectionError)
  else
    let tr0 := [Event.connect jp.device_type jp.host jp.username jp.password]
    if o.connectOk jp.device_type jp.host jp.username jp.password then
      if o.findPromptOk 0 then
        let sshLine := "ssh " ++ creds.username ++ "@" ++ device.host ++ "\n"
        let tr2 := tr0 ++ [Event.findPrompt, Event.writeChannel sshLine,
          Event.sleepSecs 1, Event.readChannel o.readChannelText]
        let tr3 :=
          if containsAuthPrompt o.readChannelText then
            tr2 ++ [Event.writeChannel (creds.password ++ "\n")]
          else
            tr2
        if o.findPromptOk 1 then
          (tr3 ++ [Event.findPrompt, Event.redispatch device.type], .ok ())
        else
          (tr3 ++ [Event.findPrompt], .error .promptError)
      else
        (tr0 ++ [Event.findPrompt], .error .promptError)
    else
      (tr0, .error .connectionError)

/-- Lines 33‑86: the whole `get_device_info` call — connection phase, then
the command phase; an exception anywhere propagates to the caller. -/
def get_device_info (o : Oracle) (device : Device) (device_type_params : DeviceTypeParams)
    (jumphost_params : JumphostParams) (device_connect_credentials : DeviceCredentials) :
    List Event × Except NetError (List String) :=
  match connectPhase o device jumphost_params device_connect_credentials with
  | (tr, .error e) => (tr, .error e)
  | (tr, .ok ()) => deviceSessionDriver o device_type_params tr

/-- File-system effects of `main`'s per-device loop. -/
inductive MainEvent where
  | openFile (name : String)
  | fileWrite (name : String) (content : String)
  | closeFile (name : String)
deriving Repr, DecidableEq

/-- Line 120: the per-device output file name, from the device's hostname
and the loop-iteration timestamp. -/
def filenameFor (device : Device) (now : String) : String :=
  device.hostname ++ "_" ++ now ++ ".txt"

/-- Lines 117‑127: `main`'s loop over the inventory.  For each device the
file is opened for writing (created/truncated) before `get_device_info` is
invoked, the returned outputs are written in order, and the `with` block
closes the file.  There is no `try`/`except`: an exception from
`get_device_info` still closes the file (the `with`) but then propagates,
terminating the loop.  `o i` is the environment seen by the `i`-th device,
`now` the `time.strftime` result, `dtp` the device-type parameter lookup. -/
def mainDeviceLoop (o : Nat → Oracle) (now : String) (dtp : String → DeviceTypeParams)
    (jp : JumphostParams) (creds : DeviceCredentials) :
    List Device → Nat → List MainEvent → List MainEvent × Except NetError Unit
  | [], _, tr => (tr, .ok ())
  | d :: ds, i, tr =>
    let fname := filenameFor d now
    let tr1 := tr ++ [MainEvent.openFile fname]
    match get_device_info (o i) d (dtp d.type) jp creds with
    | (_, .ok outs) =>
      mainDeviceLoop o now dtp jp creds ds (i + 1)
        (tr1 ++ outs.map (fun s => MainEvent.fileWrite fname s) ++ [MainEvent.closeFile fname])
    | (_, .error e) => (tr1 ++ [MainEvent.closeFile fname], .error e)

/-- Event classifiers used in the trace statements. -/
def Event.isConnect : Event → Bool
  | .connect _ _ _ _ => true
  | _ => false

def Event.isFindPrompt : Event → Bool
  | .findPrompt => true
  | _ => false

def Event.isWriteChannel : Event → Bool
  | .writeChannel _ => true
  | _ => false

def Event.isReadChannel : Event → Bool
  | .readChannel _ => true
  | _ => false

def Event.isRedispatch : Event → Bool
  | .redispatch _ => true
  | _ => false

def Event.isSendCommand : Event → Bool
  | .sendCommand _ => true
  | _ => false

def Event.isDisconnect : Event → Bool
  | .disconnect => true
  | _ => false

/-- The exact text written on the jump host's channel at line 53:
`ssh <device username>@<device host>` terminated by a newline. -/
def sshCommandLine (device : Device) (creds : DeviceCredentials) : String :=
  "ssh " ++ creds.username ++ "@" ++ device.host ++ "\n"

/-- The events the relay path produces from the `ConnectHandler` call up
to and including the post-negotiation `find_prompt` (lines 50‑59), given
that the connect and the first prompt wait succeed.  Proven below to be
exactly what `connectPhase` emits on that path. -/
def relayNegotiationTrace (o : Oracle) (device : Device) (jp : JumphostParams)
    (creds : DeviceCredentials) : List Event :=
  [Event.connect jp.device_type jp.host jp.username jp.password, Event.findPrompt,
   Event.writeChannel (sshCommandLine device creds), Event.sleepSecs 1,
   Event.readChannel o.readChannelText] ++
  (if containsAuthPrompt o.readChannelText then
    [Event.writeChannel (creds.password ++ "\n")]
  else []) ++
  [Event.findPrompt]

/-- Spec-side description (spec §4.4) of the query phase's return value:
one raw captured output per query command, in command order; `k` is the
index of the first `send_command` call used for these commands. -/
def specQueryOutputs (o : Oracle) : Nat → List String → List String
  | _, [] => []
  | k, c :: cs => (o.sendCommandRes k c).getD "" :: specQueryOutputs o (k + 1) cs

/-! Concrete fixtures used to instantiate the theorems below. -/

def devW : Device := { host := "10.0.0.1", type := "cisco_ios", hostname := "r1" }

def devW2 : Device := { host := "10.0.0.2", type := "cisco_ios", hostname := "r2" }

def dtpW : DeviceTypeParams :=
  { initial_commands := ["terminal length 0"]
    show_commands := ["show version", "show ip int brief"] }

def jpDirectW : JumphostParams :=
  { host := "", device_type := "linux", username := "ju", password := "jp" }

def jpJumpW : JumphostParams :=
  { host := "jump.example", device_type := "linux", username := "ju", password := "jp" }

def credsW : DeviceCredentials := { username := "du", password := "dp" }

/-- Environment in which everything succeeds and the relayed hop shows a
password prompt. -/
def oW : Oracle :=
  { connectOk := fun _ _ _ _ => true
    findPromptOk := fun _ => true
    readChannelText := "du@10.0.0.1 Password: "
    sendCommandRes := fun _ c => some ("o:" ++ c) }

/-- Environment in which every `ConnectHandler` call fails. -/
def oConnFailW : Oracle := { oW with connectOk := fun _ _ _ _ => false }

/-- Environment in which every `send_command` call times out. -/
def oCmdFailW : Oracle := { oW with sendCommandRes := fun _ _ => none }

/-- Environment in which the relayed hop authenticates silently (no
password prompt in the captured text). -/
def oNoAuthW : Oracle := { oW with readChannelText := "device-prompt> " }

/-- Per-device environments for a two-device run: the first device's
connection fails, the second device's environment is fully healthy. -/
def oSeqW : Nat → Oracle := fun i => if i = 0 then oConnFailW else oW

/-! ### Trace lemmas for the command phase -/

/-- The initial-command loop only appends `sendCommand` events. -/
theorem sendInitialCommands_trace (o : Oracle) (cmds : List String) (k : Nat) (tr : List Event) :
    ∃ ext, (sendInitialCommands o cmds k tr).1 = tr ++ ext ∧
      ∀ e ∈ ext, ∃ c, e = Event.sendCommand c := by
  induction cmds generalizing k tr with
  | nil => exact ⟨[], by simp [sendInitialCommands], by simp⟩
  | cons c cs ih =>
    cases hres : o.sendCommandRes k c with
    | none =>
      refine ⟨[Event.sendCommand c], ?_, ?_⟩
      · simp [sendInitialCommands, hres]
      · simp
    | some out =>
      obtain ⟨ext, h1, h2⟩ := ih (k + 1) (tr ++ [Event.sendCommand c])
      refine ⟨Event.sendCommand c :: ext, ?_, ?_⟩
      · simp only [sendInitialCommands, hres, h1, List.append_assoc, List.singleton_append]
      · intro e he
        rcases List.mem_cons.mp he with h | h
        · exact ⟨c, h⟩
        · exact h2 e h

/-- The show-command loop only appends `sendCommand` events. -/
theorem sendShowCommands_trace (o : Oracle) (cmds : List String) (k : Nat)
    (acc : List String) (tr : List Event) :
    ∃ ext, (sendShowCommands o cmds k acc tr).1 = tr ++ ext ∧
      ∀ e ∈ ext, ∃ c, e = Event.sendCommand c := by
  induction cmds generalizing k acc tr with
  | nil => exact ⟨[], by simp [sendShowCommands], by simp⟩
  | cons c cs ih =>
    cases hres : o.sendCommandRes k c with
    | none =>
      refine ⟨[Event.sendCommand c], ?_, ?_⟩
      · simp [sendShowCommands, hres]
      · simp
    | some out =>
      obtain ⟨ext, h1, h2⟩ := ih (k + 1) (acc ++ [out]) (tr ++ [Event.sendCommand c])
      refine ⟨Event.sendCommand c :: ext, ?_, ?_⟩
      · simp only [sendShowCommands, hres, h1, List.append_assoc, List.singleton_append]
      · intro e he
        rcases List.mem_cons.mp he with h | h
        · exact ⟨c, h⟩
        · exact h2 e h

/-- The command phase only appends `sendCommand` and `disconnect` events
to the trace it is given. -/
theorem deviceSessionDriver_trace (o : Oracle) (dtp : DeviceTypeParams) (tr : List Event) :
    ∃ ext, (deviceSessionDriver o dtp tr).1 = tr ++ ext ∧
      ∀ e ∈ ext, (∃ c, e = Event.sendCommand c) ∨ e = Event.disconnect := by
  unfold deviceSessionDriver
  obtain ⟨ext1, h1, hc1⟩ := sendInitialCommands_trace o dtp.initial_commands 0 tr
  rcases hinit : sendInitialCommands o dtp.initial_commands 0 tr with ⟨tr1, k, res⟩
  rw [hinit] at h1
  cases res with
  | error e =>
    exact ⟨ext1, by simpa using h1, fun e he => Or.inl (hc1 e he)⟩
  | ok u =>
    cases u
    obtain ⟨ext2, h2, hc2⟩ := sendShowCommands_trace o dtp.show_commands k [] tr1
    rcases hshow : sendShowCommands o dtp.show_commands k [] tr1 with ⟨tr2, res2⟩
    rw [hshow] at h2
    cases res2 with
    | error e =>
      refine ⟨ext1 ++ ext2, ?_, ?_⟩
      · simp only at h1 h2 ⊢
        rw [hshow]
        simp only at h1 h2 ⊢
        rw [h2, h1, List.append_assoc]
      · intro e he
        rcases List.mem_append.mp he with h | h
        · exact Or.inl (hc1 e h)
        · exact Or.inl (hc2 e h)
    | ok outs =>
      refine ⟨ext1 ++ ext2 ++ [Event.disconnect], ?_, ?_⟩
      · simp only at h1 h2 ⊢
        rw [hshow]
        simp only at h1 h2 ⊢
        rw [h2, h1]
        simp [List.append_assoc]
      · intro e he
        rcases List.mem_append.mp he with h | h
        · rcases List.mem_append.mp h with h' | h'
          · exact Or.inl (hc1 e h')
          · exact Or.inl (hc2 e h')
        · simp at h
          exact Or.inr h

/-- `get_device_info` appends only command-phase events (`sendCommand`,
`disconnect`) to the connection-phase trace. -/
theorem get_device_info_trace (o : Oracle) (device : Device) (dtp : DeviceTypeParams)
    (jp : JumphostParams) (creds : DeviceCredentials) :
    ∃ ext, (get_device_info o device dtp jp creds).1 =
        (connectPhase o device jp creds).1 ++ ext ∧
      ∀ e ∈ ext, (∃ c, e = Event.sendCommand c) ∨ e = Event.disconnect := by
  unfold get_device_info
  rcases hcp : connectPhase o device jp creds with ⟨tr, res⟩
  cases res with
  | error e => exact ⟨[], by simp, by simp⟩
  | ok u =>
    cases u
    obtain ⟨ext, h1, h2⟩ := deviceSessionDriver_trace o dtp tr
    exact ⟨ext, by simpa using h1, h2⟩

/-- An extension made of `sendCommand`/`disconnect` events contributes
nothing to a filter that rejects both. -/
theorem ext_filter_eq_nil (p : Event → Bool) (ext : List Event)
    (hext : ∀ e ∈ ext, (∃ c, e = Event.sendCommand c) ∨ e = Event.disconnect)
    (hp1 : ∀ c, p (Event.sendCommand c) = false) (hp2 : p Event.disconnect = false) :
    ext.filter p = [] := by
  rw [List.filter_eq_nil_iff]
  intro e he
  rcases hext e he with ⟨c, rfl⟩ | rfl
  · simp [hp1]
  · simp [hp2]

/-- `countP` version of `ext_filter_eq_nil`. -/
theorem ext_countP_eq_zero (p : Event → Bool) (ext : List Event)
    (hext : ∀ e ∈ ext, (∃ c, e = Event.sendCommand c) ∨ e = Event.disconnect)
    (hp1 : ∀ c, p (Event.sendCommand c) = false) (hp2 : p Event.disconnect = false) :
    ext.countP p = 0 := by
  rw [List.countP_eq_zero]
  intro e he
  rcases hext e he with ⟨c, rfl⟩ | rfl
  · simp [hp1]
  · simp [hp2]

/-! ### Case analysis of the connection phase (lines 42‑73) -/

theorem connectPhase_direct_connectFail (o : Oracle) (device : Device) (jp : JumphostParams)
    (creds : DeviceCredentials) (hjp : jp.host = "")
    (hc : o.connectOk device.type device.host creds.username creds.password = false) :
    connectPhase o device jp creds =
      ([Event.connect device.type device.host creds.username creds.password],
       .error .connectionError) := by
  unfold connectPhase
  rw [if_pos hjp, if_neg (by simp [hc])]

theorem connectPhase_direct_promptFail (o : Oracle) (device : Device) (jp : JumphostParams)
    (creds : DeviceCredentials) (hjp : jp.host = "")
    (hc : o.connectOk device.type device.host creds.username creds.password = true)
    (hp0 : o.findPromptOk 0 = false) :
    connectPhase o device jp creds =
      ([Event.connect device.type device.host creds.username creds.password,
        Event.findPrompt], .error .promptError) := by
  unfold connectPhase
  rw [if_pos hjp, if_pos hc, if_neg (by simp [hp0])]
  rfl

theorem connectPhase_direct_ok (o : Oracle) (device : Device) (jp : JumphostParams)
    (creds : DeviceCredentials) (hjp : jp.host = "")
    (hc : o.connectOk device.type device.host creds.username creds.password = true)
    (hp0 : o.findPromptOk 0 = true) :
    connectPhase o device jp creds =
      ([Event.connect device.type device.host creds.username creds.password,
        Event.findPrompt], .ok ()) := by
  unfold connectPhase
  rw [if_pos hjp, if_pos hc, if_pos hp0]
  rfl

theorem connectPhase_relay_connectFail (o : Oracle) (device : Device) (jp : JumphostParams)
    (creds : DeviceCredentials) (hjp : ¬jp.host = "")
    (hc : o.connectOk jp.device_type jp.host jp.username jp.password = false) :
    connectPhase o device jp creds =
      ([Event.connect jp.device_type jp.host jp.username jp.password],
       .error .connectionError) := by
  unfold connectPhase
  rw [if_neg hjp, if_neg (by simp [hc])]

theorem connectPhase_relay_prompt0Fail (o : Oracle) (device : Device) (jp : JumphostParams)
    (creds : DeviceCredentials) (hjp : ¬jp.host = "")
    (hc : o.connectOk jp.device_type jp.host jp.username jp.password = true)
    (hp0 : o.findPromptOk 0 = false) :
    connectPhase o device jp creds =
      ([Event.connect jp.device_type jp.host jp.username jp.password,
        Event.findPrompt], .error .promptError) := by
  unfold connectPhase
  rw [if_neg hjp, if_pos hc, if_neg (by simp [hp0])]
  rfl

theorem connectPhase_relay_prompt1Fail (o : Oracle) (device : Device) (jp : JumphostParams)
    (creds : DeviceCredentials) (hjp : ¬jp.host = "")
    (hc : o.connectOk jp.device_type jp.host jp.username jp.password = true)
    (hp0 : o.findPromptOk 0 = true) (hp1 : o.findPromptOk 1 = false) :
    connectPhase o device jp creds =
      (relayNegotiationTrace o device jp creds, .error .promptError) := by
  unfold connectPhase
  rw [if_neg hjp, if_pos hc, if_pos hp0]
  simp only [hp1]
  unfold relayNegotiationTrace sshCommandLine
  cases containsAuthPrompt o.readChannelText <;> simp

theorem connectPhase_relay_ok (o : Oracle) (device : Device) (jp : JumphostParams)
    (creds : DeviceCredentials) (hjp : ¬jp.host = "")
    (hc : o.connectOk jp.device_type jp.host jp.username jp.password = true)
    (hp0 : o.findPromptOk 0 = true) (hp1 : o.findPromptOk 1 = true) :
    connectPhase o device jp creds =
      (relayNegotiationTrace o device jp creds ++ [Event.redispatch device.type],
       .ok ()) := by
  unfold connectPhase
  rw [if_neg hjp, if_pos hc, if_pos hp0]
  simp only [hp1]
  unfold relayNegotiationTrace sshCommandLine
  cases containsAuthPrompt o.readChannelText <;> simp

/-! ### Pointwise facts about the relay-negotiation trace -/

theorem relayTrace_filter_connect (o : Oracle) (device : Device) (jp : JumphostParams)
    (creds : DeviceCredentials) :
    (relayNegotiationTrace o device jp creds).filter Event.isConnect =
      [Event.connect jp.device_type jp.host jp.username jp.password] := by
  unfold relayNegotiationTrace
  cases containsAuthPrompt o.readChannelText <;>
    simp [Event.isConnect, Event.isFindPrompt, List.filter]

theorem relayTrace_filter_writeChannel (o : Oracle) (device : Device) (jp : JumphostParams)
    (creds : DeviceCredentials) :
    (relayNegotiationTrace o device jp creds).filter Event.isWriteChannel =
      Event.writeChannel (sshCommandLine device creds) ::
        (if containsAuthPrompt o.readChannelText then
          [Event.writeChannel (creds.password ++ "\n")]
        else []) := by
  unfold relayNegotiationTrace
  cases containsAuthPrompt o.readChannelText <;> simp [Event.isWriteChannel, List.filter]

theorem relayTrace_countP_redispatch (o : Oracle) (device : Device) (jp : JumphostParams)
    (creds : DeviceCredentials) :
    (relayNegotiationTrace o device jp creds).countP Event.isRedispatch = 0 := by
  unfold relayNegotiationTrace
  cases containsAuthPrompt o.readChannelText <;> simp [Event.isRedispatch, List.countP_cons]

theorem relayTrace_countP_findPrompt (o : Oracle) (device : Device) (jp : JumphostParams)
    (creds : DeviceCredentials) :
    (relayNegotiationTrace o device jp creds).countP Event.isFindPrompt = 2 := by
  unfold relayNegotiationTrace
  cases containsAuthPrompt o.readChannelText <;> simp [Event.isFindPrompt, List.countP_cons]

theorem relayTrace_countP_sendCommand (o : Oracle) (device : Device) (jp : JumphostParams)
    (creds : DeviceCredentials) :
    (relayNegotiationTrace o device jp creds).countP Event.isSendCommand = 0 := by
  unfold relayNegotiationTrace
  cases containsAuthPrompt o.readChannelText <;> simp [Event.isSendCommand, List.countP_cons]

theorem relayTrace_countP_readChannel (o : Oracle) (device : Device) (jp : JumphostParams)
    (creds : DeviceCredentials) :
    (relayNegotiationTrace o device jp creds).countP Event.isReadChannel = 1 := by
  unfold relayNegotiationTrace
  cases containsAuthPrompt o.readChannelText <;> simp [Event.isReadChannel, List.countP_cons]

theorem relayTrace_getLast (o : Oracle) (device : Device) (jp : JumphostParams)
    (creds : DeviceCredentials) :
    (relayNegotiationTrace o device jp creds).getLast? = some Event.findPrompt := by
  unfold relayNegotiationTrace
  cases containsAuthPrompt o.readChannelText <;> simp

/-! ### The command phase when every command succeeds or one fails -/

theorem sendInitialCommands_ok (o : Oracle)
    (hall : ∀ k c, (o.sendCommandRes k c).isSome) (cmds : List String) (k : Nat)
    (tr : List Event) :
    sendInitialCommands o cmds k tr =
      (tr ++ cmds.map Event.sendCommand, k + cmds.length, .ok ()) := by
  induction cmds generalizing k tr with
  | nil => simp [sendInitialCommands]
  | cons c cs ih =>
    rcases hsome : o.sendCommandRes k c with _ | out
    · exact absurd (hall k c) (by simp [hsome])
    · rw [sendInitialCommands, hsome]
      rw [ih (k + 1)]
      simp [List.append_assoc]
      omega

theorem sendShowCommands_ok (o : Oracle)
    (hall : ∀ k c, (o.sendCommandRes k c).isSome) (cmds : List String) (k : Nat)
    (acc : List String) (tr : List Event) :
    sendShowCommands o cmds k acc tr =
      (tr ++ cmds.map Event.sendCommand, .ok (acc ++ specQueryOutputs o k cmds)) := by
  induction cmds generalizing k acc tr with
  | nil => simp [sendShowCommands, specQueryOutputs]
  | cons c cs ih =>
    rcases hsome : o.sendCommandRes k c with _ | out
    · exact absurd (hall k c) (by simp [hsome])
    · have hred : sendShowCommands o (c :: cs) k acc tr =
          sendShowCommands o cs (k + 1) (acc ++ [out]) (tr ++ [Event.sendCommand c]) := by
        rw [sendShowCommands, hsome]
      rw [hred, ih (k + 1)]
      simp [specQueryOutputs, hsome, List.append_assoc]

/-- Whenever the show-command loop returns `ok`, the returned list has one
entry per remaining command on top of the accumulator. -/
theorem sendShowCommands_ok_length (o : Oracle) (cmds : List String) :
    ∀ k acc tr outs, (sendShowCommands o cmds k acc tr).2 = .ok outs →
      outs.length = acc.length + cmds.length := by
  induction cmds with
  | nil =>
    intro k acc tr outs h
    simp [sendShowCommands] at h
    simp [← h]
  | cons c cs ih =>
    intro k acc tr outs h
    rcases hsome : o.sendCommandRes k c with _ | out
    · rw [sendShowCommands, hsome] at h
      simp at h
    · rw [sendShowCommands, hsome] at h
      have := ih (k + 1) (acc ++ [out]) (tr ++ [Event.sendCommand c]) outs h
      simp [List.length_append] at this
      simp only [List.length_cons]
      omega

/-- `countP` vanishes on a list made of `sendCommand` events only, for a
predicate rejecting `sendCommand`. -/
theorem sendOnly_countP_eq_zero (p : Event → Bool) (ext : List Event)
    (hext : ∀ e ∈ ext, ∃ c, e = Event.sendCommand c)
    (hp1 : ∀ c, p (Event.sendCommand c) = false) :
    ext.countP p = 0 := by
  rw [List.countP_eq_zero]
  intro e he
  rcases hext e he with ⟨c, rfl⟩
  simp [hp1]

/-- The command phase emits exactly one `disconnect` event when it
returns `ok` and none when it raises. -/
theorem deviceSessionDriver_count_cases (o : Oracle) (dtp : DeviceTypeParams)
    (tr : List Event) :
    (∀ outs, (deviceSessionDriver o dtp tr).2 = Except.ok outs →
      (deviceSessionDriver o dtp tr).1.countP Event.isDisconnect =
        tr.countP Event.isDisconnect + 1) ∧
    (∀ e, (deviceSessionDriver o dtp tr).2 = Except.error e →
      (deviceSessionDriver o dtp tr).1.countP Event.isDisconnect =
        tr.countP Event.isDisconnect) := by
  unfold deviceSessionDriver
  obtain ⟨ext1, h1, hc1⟩ := sendInitialCommands_trace o dtp.initial_commands 0 tr
  rcases hinit : sendInitialCommands o dtp.initial_commands 0 tr with ⟨tr1, k, res⟩
  rw [hinit] at h1
  simp only at h1
  have hext1 : ext1.countP Event.isDisconnect = 0 :=
    sendOnly_countP_eq_zero _ ext1 hc1 (fun c => rfl)
  cases res with
  | error e =>
    refine ⟨fun outs h => by simp at h, fun e' h => ?_⟩
    simp only
    rw [h1, List.countP_append, hext1]
    simp
  | ok u =>
    cases u
    obtain ⟨ext2, h2, hc2⟩ := sendShowCommands_trace o dtp.show_commands k [] tr1
    rcases hshow : sendShowCommands o dtp.show_commands k [] tr1 with ⟨tr2, res2⟩
    rw [hshow] at h2
    simp only at h2
    have hext2 : ext2.countP Event.isDisconnect = 0 :=
      sendOnly_countP_eq_zero _ ext2 hc2 (fun c => rfl)
    cases res2 with
    | error e =>
      refine ⟨fun outs h => ?_, fun e' h => ?_⟩
      · simp only at h
        rw [hshow] at h
        simp at h
      · simp only
        rw [hshow]
        simp only
        rw [h2, h1, List.countP_append, List.countP_append, hext1, hext2]
        simp
    | ok outs2 =>
      refine ⟨fun outs h => ?_, fun e' h => ?_⟩
      · simp only
        rw [hshow]
        simp only
        rw [List.countP_append, h2, h1, List.countP_append, List.countP_append,
          hext1, hext2]
        simp [Event.isDisconnect, List.countP_cons]
      · simp only at h
        rw [hshow] at h
        simp at h

/-- When the command phase returns `ok`, the output list has exactly one
entry per show command. -/
theorem deviceSessionDriver_ok_length (o : Oracle) (dtp : DeviceTypeParams)
    (tr : List Event) (outs : List String)
    (h : (deviceSessionDriver o dtp tr).2 = Except.ok outs) :
    outs.length = dtp.show_commands.length := by
  unfold deviceSessionDriver at h
  rcases hinit : sendInitialCommands o dtp.initial_commands 0 tr with ⟨tr1, k, res⟩
  rw [hinit] at h
  cases res with
  | error e => simp at h
  | ok u =>
    cases u
    simp only at h
    rcases hshow : sendShowCommands o dtp.show_commands k [] tr1 with ⟨tr2, res2⟩
    rw [hshow] at h
    cases res2 with
    | error e => simp at h
    | ok outs2 =>
      simp only at h
      have hlen := sendShowCommands_ok_length o dtp.show_commands k [] tr1 outs2
        (by rw [hshow])
      -- `h : (tr2 ++ [Event.disconnect], Except.ok outs2).2 = Except.ok outs`
      have houts : outs2 = outs := by simpa using h
      simpa [houts] using hlen

/-- No branch of the connection phase emits a `disconnect` event. -/
theorem connectPhase_no_disconnect (o : Oracle) (device : Device) (jp : JumphostParams)
    (creds : DeviceCredentials) :
    (connectPhase o device jp creds).1.countP Event.isDisconnect = 0 := by
  simp only [connectPhase]
  split_ifs <;> simp [Event.isDisconnect, List.countP_cons]

/-! ### Helpers for the `main` device loop -/

/-- When a device's `get_device_info` raises, the loop records only the
open and close of that device's output file, closes over the exception
(the Python `with` block), and terminates with the error. -/
theorem mainDeviceLoop_cons_error (o : Nat → Oracle) (now : String)
    (dtp : String → DeviceTypeParams) (jp : JumphostParams) (creds : DeviceCredentials)
    (d : Device) (ds : List Device) (i : Nat) (tr : List MainEvent) (e : NetError)
    (h : (get_device_info (o i) d (dtp d.type) jp creds).2 = Except.error e) :
    mainDeviceLoop o now dtp jp creds (d :: ds) i tr =
      (tr ++ [MainEvent.openFile (filenameFor d now),
              MainEvent.closeFile (filenameFor d now)], Except.error e) := by
  unfold mainDeviceLoop
  rcases hg : get_device_info (o i) d (dtp d.type) jp creds with ⟨tr', res⟩
  rw [hg] at h
  simp only at h
  cases res with
  | error e' =>
    simp only
    cases h
    simp
  | ok outs => simp at h

/-- Processing a device always begins by opening its output file. -/
theorem mainDeviceLoop_cons_open (o : Nat → Oracle) (now : String)
    (dtp : String → DeviceTypeParams) (jp : JumphostParams) (creds : DeviceCredentials)
    (d : Device) (ds : List Device) (i : Nat) (tr : List MainEvent) :
    ∃ rest, (mainDeviceLoop o now dtp jp creds (d :: ds) i tr).1 =
      tr ++ MainEvent.openFile (filenameFor d now) :: rest := by
  have hext : ∀ ds' i' tr', ∃ ext,
      (mainDeviceLoop o now dtp jp creds ds' i' tr').1 = tr' ++ ext := by
    intro ds'
    induction ds' with
    | nil => exact fun i' tr' => ⟨[], by simp [mainDeviceLoop]⟩
    | cons d' ds' ih =>
      intro i' tr'
      unfold mainDeviceLoop
      rcases hg : get_device_info (o i') d' (dtp d'.type) jp creds with ⟨tr'', res⟩
      cases res with
      | error e =>
        exact ⟨[MainEvent.openFile (filenameFor d' now),
          MainEvent.closeFile (filenameFor d' now)], by simp⟩
      | ok outs =>
        obtain ⟨ext, hext⟩ := ih (i' + 1)
          (tr' ++ [MainEvent.openFile (filenameFor d' now)] ++
            outs.map (fun s => MainEvent.fileWrite (filenameFor d' now) s) ++
            [MainEvent.closeFile (filenameFor d' now)])
        refine ⟨[MainEvent.openFile (filenameFor d' now)] ++
          outs.map (fun s => MainEvent.fileWrite (filenameFor d' now) s) ++
          [MainEvent.closeFile (filenameFor d' now)] ++ ext, ?_⟩
        simp only
        rw [hext]
        simp [List.append_assoc]
  unfold mainDeviceLoop
  rcases hg : get_device_info (o i) d (dtp d.type) jp creds with ⟨tr'', res⟩
  cases res with
  | error e =>
    exact ⟨[MainEvent.closeFile (filenameFor d now)], by simp⟩
  | ok outs =>
    obtain ⟨ext, h⟩ := hext ds (i + 1)
      (tr ++ [MainEvent.openFile (filenameFor d now)] ++
        outs.map (fun s => MainEvent.fileWrite (filenameFor d now) s) ++
        [MainEvent.closeFile (filenameFor d now)])
    refine ⟨outs.map (fun s => MainEvent.fileWrite (filenameFor d now) s) ++
      [MainEvent.closeFile (filenameFor d now)] ++ ext, ?_⟩
    simp only
    rw [h]
    simp [List.append_assoc]

/-! ### The claims -/

/-- Claim C1: every `get_device_info` call performs exactly one
`ConnectHandler` call.  With an empty jump-host setting it connects
directly to the device's host, with the device's type as profile and the
device credentials; with a non-empty jump-host setting it connects to the
jump host with the jump host's own profile, username and password, and no
connection to the device's host is ever attempted. -/
theorem get_device_info_opens_exactly_one_session (o : Oracle) (device : Device)
    (dtp : DeviceTypeParams) (jp : JumphostParams) (creds : DeviceCredentials) :
    (jp.host = "" →
      (get_device_info o device dtp jp creds).1.filter Event.isConnect =
        [Event.connect device.type device.host creds.username creds.password]) ∧
    (jp.host ≠ "" →
      (get_device_info o device dtp jp creds).1.filter Event.isConnect =
        [Event.connect jp.device_type jp.host jp.username jp.password]) := by
  obtain ⟨ext, hgd, hext⟩ := get_device_info_trace o device dtp jp creds
  have hextf : ext.filter Event.isConnect = [] :=
    ext_filter_eq_nil _ ext hext (fun c => rfl) rfl
  rw [hgd, List.filter_append, hextf, List.append_nil]
  constructor
  · intro hjp
    cases hc : o.connectOk device.type device.host creds.username creds.password
    · rw [connectPhase_direct_connectFail o device jp creds hjp hc]
      simp [Event.isConnect]
    · cases hp0 : o.findPromptOk 0
      · rw [connectPhase_direct_promptFail o device jp creds hjp hc hp0]
        simp [Event.isConnect, Event.isFindPrompt]
      · rw [connectPhase_direct_ok o device jp creds hjp hc hp0]
        simp [Event.isConnect, Event.isFindPrompt]
  · intro hjp
    cases hc : o.connectOk jp.device_type jp.host jp.username jp.password
    · rw [connectPhase_relay_connectFail o device jp creds hjp hc]
      simp [Event.isConnect]
    · cases hp0 : o.findPromptOk 0
      · rw [connectPhase_relay_prompt0Fail o device jp creds hjp hc hp0]
        simp [Event.isConnect, Event.isFindPrompt]
      · cases hp1 : o.findPromptOk 1
        · rw [connectPhase_relay_prompt1Fail o device jp creds hjp hc hp0 hp1]
          exact relayTrace_filter_connect o device jp creds
        · rw [connectPhase_relay_ok o device jp creds hjp hc hp0 hp1]
          simp only
          rw [List.filter_append, relayTrace_filter_connect]
          simp [Event.isConnect]

/-- Witness for `get_device_info_opens_exactly_one_session` at a concrete
direct and a concrete relayed configuration. -/
theorem get_device_info_opens_exactly_one_session_witness :
    (get_device_info oW devW dtpW jpDirectW credsW).1.filter Event.isConnect =
      [Event.connect devW.type devW.host credsW.username credsW.password] ∧
    (get_device_info oW devW dtpW jpJumpW credsW).1.filter Event.isConnect =
      [Event.connect jpJumpW.device_type jpJumpW.host jpJumpW.username
        jpJumpW.password] :=
  ⟨(get_device_info_opens_exactly_one_session oW devW dtpW jpDirectW credsW).1 rfl,
   (get_device_info_opens_exactly_one_session oW devW dtpW jpJumpW credsW).2
     (by decide)⟩

/-- Claim C2: on the relayed path the session's profile is rebound
(`redispatch`) to the device's type exactly once, only when the post-relay
blocking prompt wait has succeeded; the events preceding the rebind hold
the two prompt waits and no `send_command`, and the rebind immediately
follows the prompt wait.  If the post-relay prompt wait fails, no rebind
happens at all. -/
theorem relay_redispatch_once_after_prompt (o : Oracle) (device : Device)
    (dtp : DeviceTypeParams) (jp : JumphostParams) (creds : DeviceCredentials)
    (hjp : jp.host ≠ "")
    (hc : o.connectOk jp.device_type jp.host jp.username jp.password = true)
    (hp0 : o.findPromptOk 0 = true) :
    (o.findPromptOk 1 = true →
      ∃ pre post,
        (get_device_info o device dtp jp creds).1 =
          pre ++ Event.redispatch device.type :: post ∧
        pre.countP Event.isRedispatch = 0 ∧
        post.countP Event.isRedispatch = 0 ∧
        pre.getLast? = some Event.findPrompt ∧
        pre.countP Event.isFindPrompt = 2 ∧
        pre.countP Event.isSendCommand = 0) ∧
    (o.findPromptOk 1 = false →
      (get_device_info o device dtp jp creds).1.countP Event.isRedispatch = 0) := by
  obtain ⟨ext, hgd, hext⟩ := get_device_info_trace o device dtp jp creds
  have hextc : ext.countP Event.isRedispatch = 0 :=
    ext_countP_eq_zero _ ext hext (fun c => rfl) rfl
  constructor
  · intro hp1
    refine ⟨relayNegotiationTrace o device jp creds, ext, ?_, ?_, ?_, ?_, ?_, ?_⟩
    · rw [hgd, connectPhase_relay_ok o device jp creds hjp hc hp0 hp1]
      simp
    · exact relayTrace_countP_redispatch o device jp creds
    · exact hextc
    · exact relayTrace_getLast o device jp creds
    · exact relayTrace_countP_findPrompt o device jp creds
    · exact relayTrace_countP_sendCommand o device jp creds
  · intro hp1
    rw [hgd, connectPhase_relay_prompt1Fail o device jp creds hjp hc hp0 hp1]
    simp only
    rw [List.countP_append, relayTrace_countP_redispatch, hextc]

/-- Witness for `relay_redispatch_once_after_prompt` at a concrete relayed
configuration in which everything succeeds. -/
theorem relay_redispatch_once_after_prompt_witness :
    ∃ pre post,
      (get_device_info oW devW dtpW jpJumpW credsW).1 =
        pre ++ Event.redispatch devW.type :: post ∧
      pre.countP Event.isRedispatch = 0 ∧
      post.countP Event.isRedispatch = 0 ∧
      pre.getLast? = some Event.findPrompt ∧
      pre.countP Event.isFindPrompt = 2 ∧
      pre.countP Event.isSendCommand = 0 :=
  (relay_redispatch_once_after_prompt oW devW dtpW jpJumpW credsW (by decide)
    rfl rfl).1 rfl

/-- Claim C3: during relay negotiation, the device password (with a
trailing newline) is written to the channel exactly once when the text
read from the channel contains `password` or `Password` (case-sensitive),
and never otherwise; the only other channel write is the embedded `ssh`
line. -/
theorem relay_password_sent_iff_prompt_detected (o : Oracle) (device : Device)
    (dtp : DeviceTypeParams) (jp : JumphostParams) (creds : DeviceCredentials)
    (hjp : jp.host ≠ "")
    (hc : o.connectOk jp.device_type jp.host jp.username jp.password = true)
    (hp0 : o.findPromptOk 0 = true) :
    (get_device_info o device dtp jp creds).1.filter Event.isWriteChannel =
      Event.writeChannel (sshCommandLine device creds) ::
        (if containsAuthPrompt o.readChannelText then
          [Event.writeChannel (creds.password ++ "\n")]
        else []) := by
  obtain ⟨ext, hgd, hext⟩ := get_device_info_trace o device dtp jp creds
  have hextf : ext.filter Event.isWriteChannel = [] :=
    ext_filter_eq_nil _ ext hext (fun c => rfl) rfl
  rw [hgd, List.filter_append, hextf, List.append_nil]
  cases hp1 : o.findPromptOk 1
  · rw [connectPhase_relay_prompt1Fail o device jp creds hjp hc hp0 hp1]
    exact relayTrace_filter_writeChannel o device jp creds
  · rw [connectPhase_relay_ok o device jp creds hjp hc hp0 hp1]
    simp only
    rw [List.filter_append, relayTrace_filter_writeChannel]
    simp [Event.isWriteChannel]

/-- Witness for `relay_password_sent_iff_prompt_detected`: in `oW` the
captured text contains `Password`, so the password write is present. -/
theorem relay_password_sent_iff_prompt_detected_witness :
    (get_device_info oW devW dtpW jpJumpW credsW).1.filter Event.isWriteChannel =
      Event.writeChannel (sshCommandLine devW credsW) ::
        (if containsAuthPrompt oW.readChannelText then
          [Event.writeChannel (credsW.password ++ "\n")]
        else []) :=
  relay_password_sent_iff_prompt_detected oW devW dtpW jpJumpW credsW (by decide)
    rfl rfl

/-- Claim C4: on an established session whose commands all succeed, the
command phase sends every initial command then every show command, in list
order, and returns exactly one raw output per show command, in
show-command order (the output of the `k`-th overall `send_command`
call). -/
theorem driver_outputs_in_order (o : Oracle) (dtp : DeviceTypeParams)
    (tr0 : List Event) (hall : ∀ k c, (o.sendCommandRes k c).isSome) :
    (deviceSessionDriver o dtp tr0).2 =
      Except.ok (specQueryOutputs o dtp.initial_commands.length dtp.show_commands) ∧
    (deviceSessionDriver o dtp tr0).1 =
      tr0 ++ (dtp.initial_commands ++ dtp.show_commands).map Event.sendCommand ++
        [Event.disconnect] := by
  unfold deviceSessionDriver
  rw [sendInitialCommands_ok o hall]
  simp only
  rw [sendShowCommands_ok o hall]
  simp [List.append_assoc, List.map_append]

/-- Witness for `driver_outputs_in_order` on the concrete device-type
parameters with a fully healthy environment. -/
theorem driver_outputs_in_order_witness :
    (deviceSessionDriver oW dtpW []).2 =
      Except.ok (specQueryOutputs oW dtpW.initial_commands.length dtpW.show_commands) ∧
    (deviceSessionDriver oW dtpW []).1 =
      [] ++ (dtpW.initial_commands ++ dtpW.show_commands).map Event.sendCommand ++
        [Event.disconnect] :=
  driver_outputs_in_order oW dtpW [] (fun _ _ => rfl)

/-- Claim C5 counterexample: the claim says `disconnect` is invoked
exactly once on both success and failure paths, but when the first
initial command times out, `get_device_info` propagates the error and
never invokes `disconnect`. -/
theorem disconnect_skipped_on_failure_cex :
    (get_device_info oCmdFailW devW dtpW jpDirectW credsW).2 =
      Except.error (NetError.commandError "terminal length 0") ∧
    (get_device_info oCmdFailW devW dtpW jpDirectW credsW).1.countP
      Event.isDisconnect = 0 := by
  constructor <;> rfl

/-- Claim C5 (amended): `disconnect` is invoked exactly once when the
call succeeds, and never on any failure path (connection, relay
negotiation, initial-command or query failure): the session is left
open when the call raises. -/
theorem disconnect_only_on_success (o : Oracle) (device : Device)
    (dtp : DeviceTypeParams) (jp : JumphostParams) (creds : DeviceCredentials) :
    ((∃ outs, (get_device_info o device dtp jp creds).2 = Except.ok outs) →
      (get_device_info o device dtp jp creds).1.countP Event.isDisconnect = 1) ∧
    ((∃ e, (get_device_info o device dtp jp creds).2 = Except.error e) →
      (get_device_info o device dtp jp creds).1.countP Event.isDisconnect = 0) := by
  have hcp0 := connectPhase_no_disconnect o device jp creds
  unfold get_device_info
  rcases hcp : connectPhase o device jp creds with ⟨tr, res⟩
  rw [hcp] at hcp0
  simp only at hcp0
  cases res with
  | error e =>
    simp only
    exact ⟨fun ⟨outs, h⟩ => by simp at h, fun _ => hcp0⟩
  | ok u =>
    cases u
    simp only
    obtain ⟨hok, herr⟩ := deviceSessionDriver_count_cases o dtp tr
    refine ⟨fun ⟨outs, h⟩ => ?_, fun ⟨e, h⟩ => ?_⟩
    · rw [hok outs h, hcp0]
    · rw [herr e h, hcp0]

/-- Witness for `disconnect_only_on_success`: a successful direct call
disconnects exactly once. -/
theorem disconnect_only_on_success_witness :
    (get_device_info oW devW dtpW jpDirectW credsW).1.countP Event.isDisconnect = 1 :=
  (disconnect_only_on_success oW devW dtpW jpDirectW credsW).1
    ⟨["o:show version", "o:show ip int brief"], rfl⟩

/-- Claim C6: a `get_device_info` call never returns a partial output
list: whenever it returns at all, the returned list has exactly one entry
per show command. -/
theorem no_partial_output (o : Oracle) (device : Device) (dtp : DeviceTypeParams)
    (jp : JumphostParams) (creds : DeviceCredentials) (outs : List String)
    (h : (get_device_info o device dtp jp creds).2 = Except.ok outs) :
    outs.length = dtp.show_commands.length := by
  unfold get_device_info at h
  rcases hcp : connectPhase o device jp creds with ⟨tr, res⟩
  rw [hcp] at h
  cases res with
  | error e => simp at h
  | ok u =>
    cases u
    simp only at h
    exact deviceSessionDriver_ok_length o dtp tr outs h

/-- Witness for `no_partial_output` on a successful concrete run. -/
theorem no_partial_output_witness :
    (["o:show version", "o:show ip int brief"] : List String).length =
      dtpW.show_commands.length :=
  no_partial_output oW devW dtpW jpDirectW credsW
    ["o:show version", "o:show ip int brief"] rfl

/-- Claim C7: when opening the session to the jump host fails, the call
fails with a connection error, the trace holds nothing but that one
connect attempt (no device session is ever opened) and `disconnect` is
never invoked. -/
theorem jumphost_connect_failure_aborts (o : Oracle) (device : Device)
    (dtp : DeviceTypeParams) (jp : JumphostParams) (creds : DeviceCredentials)
    (hjp : jp.host ≠ "")
    (hc : o.connectOk jp.device_type jp.host jp.username jp.password = false) :
    get_device_info o device dtp jp creds =
      ([Event.connect jp.device_type jp.host jp.username jp.password],
       Except.error NetError.connectionError) ∧
    (get_device_info o device dtp jp creds).1.countP Event.isDisconnect = 0 := by
  have h : get_device_info o device dtp jp creds =
      ([Event.connect jp.device_type jp.host jp.username jp.password],
       Except.error NetError.connectionError) := by
    unfold get_device_info
    rw [connectPhase_relay_connectFail o device jp creds hjp hc]
  exact ⟨h, by rw [h]; simp [Event.isDisconnect, List.countP_cons]⟩

/-- Witness for `jumphost_connect_failure_aborts` with a concrete
unreachable jump host. -/
theorem jumphost_connect_failure_aborts_witness :
    get_device_info oConnFailW devW dtpW jpJumpW credsW =
      ([Event.connect jpJumpW.device_type jpJumpW.host jpJumpW.username
         jpJumpW.password],
       Except.error NetError.connectionError) ∧
    (get_device_info oConnFailW devW dtpW jpJumpW credsW).1.countP
      Event.isDisconnect = 0 :=
  jumphost_connect_failure_aborts oConnFailW devW dtpW jpJumpW credsW (by decide) rfl

/-- Claim C8: after connecting to the jump host, the relay writes exactly
`ssh <device username>@<device host>\n`, sleeps the fixed interval, and
reads the channel exactly once; the number of channel writes (and hence
whether the password is sent) is decided solely by that single read's
text. -/
theorem relay_single_read_decides_password (o : Oracle) (device : Device)
    (dtp : DeviceTypeParams) (jp : JumphostParams) (creds : DeviceCredentials)
    (hjp : jp.host ≠ "")
    (hc : o.connectOk jp.device_type jp.host jp.username jp.password = true)
    (hp0 : o.findPromptOk 0 = true) :
    (∃ rest, (get_device_info o device dtp jp creds).1 =
      [Event.connect jp.device_type jp.host jp.username jp.password, Event.findPrompt,
       Event.writeChannel (sshCommandLine device creds), Event.sleepSecs 1,
       Event.readChannel o.readChannelText] ++ rest) ∧
    (get_device_info o device dtp jp creds).1.countP Event.isReadChannel = 1 ∧
    ((get_device_info o device dtp jp creds).1.filter Event.isWriteChannel).length =
      (if containsAuthPrompt o.readChannelText then 2 else 1) := by
  obtain ⟨ext, hgd, hext⟩ := get_device_info_trace o device dtp jp creds
  have hextw : ext.filter Event.isWriteChannel = [] :=
    ext_filter_eq_nil _ ext hext (fun c => rfl) rfl
  have hextr : ext.countP Event.isReadChannel = 0 :=
    ext_countP_eq_zero _ ext hext (fun c => rfl) rfl
  have hbase : ∃ mid, (get_device_info o device dtp jp creds).1 =
      relayNegotiationTrace o device jp creds ++ mid ∧
      mid.countP Event.isReadChannel = 0 ∧ mid.filter Event.isWriteChannel = [] := by
    cases hp1 : o.findPromptOk 1
    · refine ⟨ext, ?_, hextr, hextw⟩
      rw [hgd, connectPhase_relay_prompt1Fail o device jp creds hjp hc hp0 hp1]
    · refine ⟨Event.redispatch device.type :: ext, ?_, ?_, ?_⟩
      · rw [hgd, connectPhase_relay_ok o device jp creds hjp hc hp0 hp1]
        simp
      · simp [List.countP_cons, Event.isReadChannel, hextr]
      · simp [List.filter_cons, Event.isWriteChannel, hextw]
  obtain ⟨mid, hmid, hmidr, hmidw⟩ := hbase
  refine ⟨?_, ?_, ?_⟩
  · refine ⟨((if containsAuthPrompt o.readChannelText then
        [Event.writeChannel (creds.password ++ "\n")] else []) ++
        [Event.findPrompt]) ++ mid, ?_⟩
    rw [hmid]
    unfold relayNegotiationTrace sshCommandLine
    simp [List.append_assoc]
  · rw [hmid, List.countP_append, relayTrace_countP_readChannel, hmidr]
  · rw [hmid, List.filter_append, relayTrace_filter_writeChannel, hmidw,
      List.append_nil]
    cases containsAuthPrompt o.readChannelText <;> simp

/-- Witness for `relay_single_read_decides_password` at a concrete
relayed configuration showing a password prompt. -/
theorem relay_single_read_decides_password_witness :
    (∃ rest, (get_device_info oW devW dtpW jpJumpW credsW).1 =
      [Event.connect jpJumpW.device_type jpJumpW.host jpJumpW.username
        jpJumpW.password, Event.findPrompt,
       Event.writeChannel (sshCommandLine devW credsW), Event.sleepSecs 1,
       Event.readChannel oW.readChannelText] ++ rest) ∧
    (get_device_info oW devW dtpW jpJumpW credsW).1.countP Event.isReadChannel = 1 ∧
    ((get_device_info oW devW dtpW jpJumpW credsW).1.filter
      Event.isWriteChannel).length =
      (if containsAuthPrompt oW.readChannelText then 2 else 1) :=
  relay_single_read_decides_password oW devW dtpW jpJumpW credsW (by decide) rfl rfl

/-- Claim C9 counterexample: with two devices in the inventory and the
first device's connection failing, `main`'s loop terminates immediately —
the second device's output file is never even opened, so the run does not
continue past the failure. -/
theorem main_stops_on_device_failure_cex :
    mainDeviceLoop oSeqW "2022-01-01_000000" (fun _ => dtpW) jpDirectW credsW
        [devW, devW2] 0 [] =
      ([MainEvent.openFile "r1_2022-01-01_000000.txt",
        MainEvent.closeFile "r1_2022-01-01_000000.txt"],
       Except.error NetError.connectionError) := by
  rfl

/-- Claim C9 (amended): `main` has no exception handling around
`get_device_info`: when a device's call fails, the loop stops there with
the error; remaining devices are not processed (and no failure is logged
and skipped). -/
theorem main_aborts_loop_on_failure (o : Nat → Oracle) (now : String)
    (dtp : String → DeviceTypeParams) (jp : JumphostParams)
    (creds : DeviceCredentials) (d : Device) (ds : List Device) (i : Nat)
    (tr : List MainEvent) (e : NetError)
    (h : (get_device_info (o i) d (dtp d.type) jp creds).2 = Except.error e) :
    mainDeviceLoop o now dtp jp creds (d :: ds) i tr =
      (tr ++ [MainEvent.openFile (filenameFor d now),
              MainEvent.closeFile (filenameFor d now)], Except.error e) :=
  mainDeviceLoop_cons_error o now dtp jp creds d ds i tr e h

/-- Witness for `main_aborts_loop_on_failure` on the two-device run whose
first device fails. -/
theorem main_aborts_loop_on_failure_witness :
    mainDeviceLoop oSeqW "T" (fun _ => dtpW) jpDirectW credsW [devW, devW2] 0 [] =
      ([MainEvent.openFile (filenameFor devW "T"),
        MainEvent.closeFile (filenameFor devW "T")],
       Except.error NetError.connectionError) := by
  have h := main_aborts_loop_on_failure oSeqW "T" (fun _ => dtpW) jpDirectW credsW
    devW [devW2] 0 [] NetError.connectionError rfl
  simpa using h

/-- Claim C10: `main` opens (creates/truncates) the per-device output
file before `get_device_info` is invoked: the first event recorded for a
device is the file open, and when the device's call fails the file has
been opened and closed with no writes — a fresh empty output file is left
behind. -/
theorem output_file_opened_before_device_call (o : Nat → Oracle) (now : String)
    (dtp : String → DeviceTypeParams) (jp : JumphostParams)
    (creds : DeviceCredentials) (d : Device) (ds : List Device) (i : Nat)
    (tr : List MainEvent) :
    (((mainDeviceLoop o now dtp jp creds (d :: ds) i tr).1.drop tr.length).head? =
      some (MainEvent.openFile (filenameFor d now))) ∧
    (∀ e, (get_device_info (o i) d (dtp d.type) jp creds).2 = Except.error e →
      (mainDeviceLoop o now dtp jp creds (d :: ds) i tr).1 =
        tr ++ [MainEvent.openFile (filenameFor d now),
               MainEvent.closeFile (filenameFor d now)]) := by
  constructor
  · obtain ⟨rest, h⟩ := mainDeviceLoop_cons_open o now dtp jp creds d ds i tr
    rw [h, List.drop_left]
    rfl
  · intro e he
    rw [mainDeviceLoop_cons_error o now dtp jp creds d ds i tr e he]

/-- Witness for `output_file_opened_before_device_call` on a failing
first device: the file is opened first and stays empty. -/
theorem output_file_opened_before_device_call_witness :
    (((mainDeviceLoop oSeqW "T" (fun _ => dtpW) jpDirectW credsW [devW, devW2] 0
        []).1.drop ([] : List MainEvent).length).head? =
      some (MainEvent.openFile (filenameFor devW "T"))) ∧
    (mainDeviceLoop oSeqW "T" (fun _ => dtpW) jpDirectW credsW [devW, devW2] 0
        []).1 =
      [] ++ [MainEvent.openFile (filenameFor devW "T"),
             MainEvent.closeFile (filenameFor devW "T")] := by
  have h := output_file_opened_before_device_call oSeqW "T" (fun _ => dtpW)
    jpDirectW credsW devW [devW2] 0 []
  exact ⟨h.1, h.2 NetError.connectionError rfl⟩

end LegianChallenge
